import Mathlib

/-!
Verification of the blitz input/style core against its specification.

The development shallowly embeds the two source modules:
* `src/style.rs` — the style cascade resolvers (`ForgroundColor`,
  `BackgroundColor`, `Border`), and
* `src/events.rs` — the event synthesizer (`BlitzEventHandler`) with its
  interaction state, event queue and pruning pass.

External collaborators (the CSS value parser from `parcel_css`, the
hit-test function, the focus controller in `focus.rs` and the per-node
state in `node.rs`, none of which are part of the two embedded files) are
modelled abstractly: parsers and hit-tests are explicit function
parameters, and calls into the focus controller are recorded as a trace
of operations.
-/

set_option autoImplicit false

namespace Blitz

/-! ## Style data model (src/style.rs)

Colors are `parcel_css::values::color::CssColor`; only the `CurrentColor`
and `RGBA` shapes matter to this code, with decidable equality and the
library default of fully transparent `rgba(0,0,0,0)`. -/

/-- A CSS color value: either `currentcolor` or an RGBA quadruple. -/
inductive CssColor where
  | currentColor : CssColor
  | rgba (r g b a : Nat) : CssColor
deriving DecidableEq, Repr

/-- Library default for `CssColor`: fully transparent black. -/
def CssColor.default : CssColor := .rgba 0 0 0 0

/-- An attribute value as seen through `dioxus`: either text or some
non-text payload (`as_text()` returns `None` on the latter). -/
inductive AttrValue where
  | text (s : String) : AttrValue
  | notText : AttrValue
deriving DecidableEq, Repr

/-- Mirror of `AttributeValue::as_text`. -/
def AttrValue.asText : AttrValue → Option String
  | .text s => some s
  | .notText => none

/-- A declared attribute: a name and a value. The lists fed to each
resolver are already masked to that resolver's `NODE_MASK`, as
`dioxus_native_core` masks `NodeView::attributes()`. -/
structure Attr where
  name : String
  value : AttrValue
deriving DecidableEq, Repr

/-- The resolved foreground color state (newtype over `CssColor`). -/
structure ForgroundColor where
  val : CssColor
deriving DecidableEq, Repr

/-- The resolved background color state (newtype over `CssColor`). -/
structure BackgroundColor where
  val : CssColor
deriving DecidableEq, Repr

/-- Attribute mask of the foreground resolver. -/
def ForgroundColor.NODE_MASK : List String := ["color"]

/-- Attribute mask of the background resolver. -/
def BackgroundColor.NODE_MASK : List String := ["background-color"]

/-- Mirror of `BackgroundColor::reduce`.  `parseColor` stands for
`CssColor::parse` over the declared text (an external parser; `none`
models a parse error).  Returns the new state and the changed flag. -/
def BackgroundColor.reduce (parseColor : String → Option CssColor)
    (attrs : List Attr) (self : BackgroundColor) : BackgroundColor × Bool :=
  match attrs.head? with
  | some colorAttr =>
    match colorAttr.value.asText with
    | some asText =>
      match parseColor asText with
      | some newColor =>
        if self.val ≠ newColor then (⟨newColor⟩, true) else (self, false)
      | none => (self, false)
    | none => (self, false)
  | none => (self, false)

/-- Mirror of `ForgroundColor::reduce`.  The source computes
`new = if let Some(parent) = parent { parent.0.clone() } else if ...` —
the parent's already-resolved value is used whenever a parent exists,
and the node's own `color` declaration is only consulted when there is
no parent; every early `return false` leaves `self` unchanged. -/
def ForgroundColor.reduce (parseColor : String → Option CssColor)
    (attrs : List Attr) (parent : Option ForgroundColor)
    (self : ForgroundColor) : ForgroundColor × Bool :=
  let new? : Option CssColor :=
    match parent with
    | some p => some p.val
    | none =>
      match attrs.head? with
      | some colorAttr =>
        match colorAttr.value.asText with
        | some asText =>
          match parseColor asText with
          | some newColor => some newColor
          | none => none
        | none => none
      | none => none
  match new? with
  | some new => if self.val ≠ new then (⟨new⟩, true) else (self, false)
  | none => (self, false)

/-! ## Border (src/style.rs) -/

/-- `parcel_css::properties::border::BorderSideWidth`; the library
default is `Medium`. -/
inductive BorderSideWidth where
  | thin | medium | thick
  | length (n : Nat)
deriving DecidableEq, Repr

/-- Per-edge border colors (`parcel_css` `BorderColor`). -/
structure BorderColorV where
  top : CssColor
  right : CssColor
  bottom : CssColor
  left : CssColor
deriving DecidableEq, Repr

/-- Per-edge border widths (`parcel_css` `BorderWidth`). -/
structure BorderWidthV where
  top : BorderSideWidth
  right : BorderSideWidth
  bottom : BorderSideWidth
  left : BorderSideWidth
deriving DecidableEq, Repr

/-- A corner radius (a `Size2D` of two lengths). -/
structure Radius where
  x : Nat
  y : Nat
deriving DecidableEq, Repr

/-- Per-corner border radii (`parcel_css` `BorderRadius`); library
default is all-zero. -/
structure BorderRadiusV where
  top_left : Radius
  top_right : Radius
  bottom_right : Radius
  bottom_left : Radius
deriving DecidableEq, Repr

/-- The resolved border state of a node. -/
structure Border where
  colors : BorderColorV
  width : BorderWidthV
  radius : BorderRadiusV
deriving DecidableEq, Repr

/-- Mirror of `impl Default for Border`: transparent colors
(`CssColor::default()`), default side widths and zero radii. -/
def Border.default : Border :=
  { colors := ⟨CssColor.default, CssColor.default, CssColor.default, CssColor.default⟩
    width := ⟨.medium, .medium, .medium, .medium⟩
    radius := ⟨⟨0, 0⟩, ⟨0, 0⟩, ⟨0, 0⟩, ⟨0, 0⟩⟩ }

/-- Attribute mask of the border resolver.  In the source the fifteen
string literals are fed to the `sorted_str_slice!` macro, which collects
every string literal between the brackets (commas are optional and
ignored) into a `BTreeMap` keyed by the string, so the emitted slice is
this lexicographically sorted list of all fifteen names. -/
def Border.NODE_MASK : List String :=
  [ "border-bottom-color"
  , "border-bottom-left-radius"
  , "border-bottom-right-radius"
  , "border-bottom-width"
  , "border-color"
  , "border-left-color"
  , "border-left-width"
  , "border-radius"
  , "border-right-color"
  , "border-right-width"
  , "border-top-color"
  , "border-top-left-radius"
  , "border-top-right-radius"
  , "border-top-width"
  , "border-width" ]

/-- The result of `parcel_css`'s `Property::parse` on one declaration,
restricted to the variants `Border::reduce` matches on.  `unparsed`
covers every other outcome — in particular `Property::Unparsed`, the
variant the library falls back to when a recognized property's value
fails to parse (its source: if a value was unable to be parsed, treat
as an unparsed property), and `Property::Custom` — all of which land in
the `_ => {}` arm of the reducer.  `Property::parse` is total over text
input, so the `unwrap` on its result in the source never fires. -/
inductive Property where
  | borderColor (c : BorderColorV)
  | borderTopColor (c : CssColor)
  | borderRightColor (c : CssColor)
  | borderBottomColor (c : CssColor)
  | borderLeftColor (c : CssColor)
  | borderRadius (r : BorderRadiusV)
  | borderTopLeftRadius (r : Radius)
  | borderTopRightRadius (r : Radius)
  | borderBottomRightRadius (r : Radius)
  | borderBottomLeftRadius (r : Radius)
  | borderWidth (w : BorderWidthV)
  | borderTopWidth (w : BorderSideWidth)
  | borderRightWidth (w : BorderSideWidth)
  | borderBottomWidth (w : BorderSideWidth)
  | borderLeftWidth (w : BorderSideWidth)
  | unparsed
deriving DecidableEq, Repr

/-- One arm of the `match` in `Border::reduce`: fold a parsed property
into the border being built. -/
def Border.applyProp (b : Border) : Property → Border
  | .borderColor c => { b with colors := c }
  | .borderTopColor c => { b with colors := { b.colors with top := c } }
  | .borderRightColor c => { b with colors := { b.colors with right := c } }
  | .borderBottomColor c => { b with colors := { b.colors with bottom := c } }
  | .borderLeftColor c => { b with colors := { b.colors with left := c } }
  | .borderRadius r => { b with radius := r }
  | .borderTopLeftRadius r => { b with radius := { b.radius with top_left := r } }
  | .borderTopRightRadius r => { b with radius := { b.radius with top_right := r } }
  | .borderBottomRightRadius r => { b with radius := { b.radius with bottom_right := r } }
  | .borderBottomLeftRadius r => { b with radius := { b.radius with bottom_left := r } }
  | .borderWidth w => { b with width := w }
  | .borderTopWidth w => { b with width := { b.width with top := w } }
  | .borderRightWidth w => { b with width := { b.width with right := w } }
  | .borderBottomWidth w => { b with width := { b.width with bottom := w } }
  | .borderLeftWidth w => { b with width := { b.width with left := w } }
  | .unparsed => b

/-- The `as_text().unwrap()` performed on every attribute of the loop in
`Border::reduce`: succeeds only when every attribute value is text
(`none` models the panic on a non-text value). -/
def attrTexts : List Attr → Option (List (String × String))
  | [] => some []
  | a :: rest =>
    match a.value.asText with
    | some t =>
      match attrTexts rest with
      | some l => some ((a.name, t) :: l)
      | none => none
    | none => none

/-- The accumulation loop of `Border::reduce`, starting from an
arbitrary partial result. -/
def Border.applyAll (p : String → String → Property)
    (init : Border) (decls : List (String × String)) : Border :=
  decls.foldl (fun b d => b.applyProp (p d.1 d.2)) init

/-- Mirror of `Border::reduce`: build `new` from `Border::default()` by
folding every (masked) attribute's parsed property over it in
declaration order, then compare with `self`.  `p` stands for
`Property::parse` (name, value text); the outer `Option` is `none`
exactly when an attribute value is not text, where the source's
`as_text().unwrap()` panics. -/
def Border.reduce (p : String → String → Property)
    (attrs : List Attr) (self : Border) : Option (Border × Bool) :=
  match attrTexts attrs with
  | none => none
  | some decls =>
    let new := Border.applyAll p Border.default decls
    some (if self ≠ new then (new, true) else (self, false))

/-- The whole per-node style state (`struct Style`). -/
structure Style where
  color : ForgroundColor
  bg_color : BackgroundColor
  border : Border
deriving DecidableEq, Repr

/-- Mirror of `impl Default for Style`: opaque black foreground,
fully transparent white background, default border. -/
def Style.default : Style :=
  { color := ⟨.rgba 0 0 0 255⟩
    bg_color := ⟨.rgba 255 255 255 0⟩
    border := Border.default }

/-! ## Event synthesizer data model (src/events.rs)

Node handles (`ElementId`) are `Nat`.  Event payloads (`KeyboardData`,
`MouseData`) carry no information any claim depends on and are omitted
from the queued-event record; the queue keeps target, name and bubbling
flag.  Timestamps (`Instant`) are milliseconds as `Nat`, passed to the
handler as the current time where the source calls `Instant::now()`. -/

/-- The double-click window, `DBL_CLICK_TIME` (milliseconds). -/
def DBL_CLICK_TIME : Nat := 500

/-- Modifier-key snapshot (`keyboard_types::Modifiers` restricted to the
four flags the source sets). -/
structure Modifiers where
  alt : Bool
  control : Bool
  metaKey : Bool
  shift : Bool
deriving DecidableEq, Repr

/-- Mirror of `Modifiers::empty()`. -/
def Modifiers.empty : Modifiers := ⟨false, false, false, false⟩

/-- Canonical mouse buttons (`input_data::MouseButton`). -/
inductive InputMouseButton where
  | primary | auxiliary | secondary | fourth | fifth | unknown
deriving DecidableEq, Repr

/-- Platform mouse buttons (`tao::event::MouseButton`). -/
inductive TaoMouseButton where
  | left | middle | right
  | other (n : Nat)
deriving DecidableEq, Repr

/-- Platform button transition (`tao::event::ElementState`; the source's
catch-all `_ => todo!()` arm is unreachable for these two). -/
inductive ElementState where
  | pressed | released
deriving DecidableEq, Repr

/-- A cursor position (layout-space point fed to hit-testing). -/
structure Point where
  x : Int
  y : Int
deriving DecidableEq, Repr

/-- A queued semantic event (`dioxus` `UserEvent` restricted to the
fields the synthesizer decides: target element, event name, bubbling;
`scope_id` is always `None` and `priority` always `Medium`). -/
structure UserEvent where
  element : Option Nat
  name : String
  bubbles : Bool
deriving DecidableEq, Repr

/-- A call into the shared focus controller.  `FocusState` itself lives
in `src/focus.rs`, which is not among the embedded files, so the
synthesizer's interactions with it are recorded as a trace:
`progress forward` for `FocusState::progress(rdom, forward)` and
`set_focus id` for `FocusState::set_focus(rdom, id)`. -/
inductive FocusOp where
  | progress (forward : Bool)
  | set_focus (id : Nat)
deriving DecidableEq, Repr

/-- The observable part of the shared `Arc<Mutex<FocusState>>`:
`last_focused_id` is the field the synthesizer reads for keyboard
targets; `ops` is the trace of calls made into the controller (their
effect on the focused node is implemented outside the embedded files). -/
structure FocusStateModel where
  last_focused_id : Option Nat
  ops : List FocusOp
deriving DecidableEq, Repr

/-- Mirror of `struct CursorState`. -/
structure CursorState where
  position : Point
  buttons : List InputMouseButton
  last_click : Option Nat
  last_pressed_element : Option Nat
  last_clicked_element : Option Nat
  hovered : Option Nat
deriving DecidableEq, Repr

/-- Mirror of `impl Default for CursorState`. -/
def CursorState.default : CursorState :=
  { position := ⟨0, 0⟩
    buttons := []
    last_click := none
    last_pressed_element := none
    last_clicked_element := none
    hovered := none }

/-- Mirror of `struct EventState`. -/
structure EventState where
  modifier_state : Modifiers
  cursor_state : CursorState
  focus_state : FocusStateModel
deriving DecidableEq, Repr

/-- Mirror of `struct BlitzEventHandler`. -/
structure BlitzEventHandler where
  state : EventState
  queued_events : List UserEvent
deriving DecidableEq, Repr

/-- Mirror of the derived `Default` for the handler (with an initially
unfocused focus controller and empty trace). -/
def BlitzEventHandler.default : BlitzEventHandler :=
  { state :=
      { modifier_state := Modifiers.empty
        cursor_state := CursorState.default
        focus_state := { last_focused_id := none, ops := [] } }
    queued_events := [] }

/-- `self.queued_events.push(e)`. -/
def BlitzEventHandler.pushEvent (h : BlitzEventHandler) (e : UserEvent) : BlitzEventHandler :=
  { h with queued_events := h.queued_events ++ [e] }

/-- Write `self.state.cursor_state.hovered`. -/
def BlitzEventHandler.setHovered (h : BlitzEventHandler) (v : Option Nat) : BlitzEventHandler :=
  { h with state := { h.state with cursor_state := { h.state.cursor_state with hovered := v } } }

/-- Write `self.state.cursor_state.position`. -/
def BlitzEventHandler.setPosition (h : BlitzEventHandler) (v : Point) : BlitzEventHandler :=
  { h with state := { h.state with cursor_state := { h.state.cursor_state with position := v } } }

/-- Write `self.state.cursor_state.buttons`. -/
def BlitzEventHandler.setButtons (h : BlitzEventHandler) (v : List InputMouseButton) :
    BlitzEventHandler :=
  { h with state := { h.state with cursor_state := { h.state.cursor_state with buttons := v } } }

/-- Write `self.state.cursor_state.last_click`. -/
def BlitzEventHandler.setLastClick (h : BlitzEventHandler) (v : Option Nat) : BlitzEventHandler :=
  { h with state := { h.state with cursor_state := { h.state.cursor_state with last_click := v } } }

/-- Write `self.state.cursor_state.last_pressed_element`. -/
def BlitzEventHandler.setLastPressed (h : BlitzEventHandler) (v : Option Nat) : BlitzEventHandler :=
  { h with state :=
      { h.state with cursor_state := { h.state.cursor_state with last_pressed_element := v } } }

/-- Write `self.state.cursor_state.last_clicked_element`. -/
def BlitzEventHandler.setLastClicked (h : BlitzEventHandler) (v : Option Nat) : BlitzEventHandler :=
  { h with state :=
      { h.state with cursor_state := { h.state.cursor_state with last_clicked_element := v } } }

/-- Record a `FocusState::progress` call. -/
def BlitzEventHandler.callProgress (h : BlitzEventHandler) (forward : Bool) : BlitzEventHandler :=
  { h with state :=
      { h.state with focus_state :=
          { h.state.focus_state with ops := h.state.focus_state.ops ++ [.progress forward] } } }

/-- Record a `FocusState::set_focus` call. -/
def BlitzEventHandler.callSetFocus (h : BlitzEventHandler) (id : Nat) : BlitzEventHandler :=
  { h with state :=
      { h.state with focus_state :=
          { h.state.focus_state with ops := h.state.focus_state.ops ++ [.set_focus id] } } }

/-! ## Keyboard input -/

/-- Logical keys as far as the source inspects them (`Key::Tab` against
everything else). -/
inductive Key where
  | tab
  | otherKey (s : String)
deriving DecidableEq, Repr

/-- The inspected fields of a `tao` `KeyEvent`: transition state,
logical key, and the optional text payload.  The payload fields packed
into `KeyboardData` (code, location, repeat, modifier snapshot) are
carried opaquely by the source and decide nothing in the claims. -/
structure KeyEvent where
  state : ElementState
  logical_key : Key
  text : Option String
deriving DecidableEq, Repr

/-- Mirror of the `WindowEvent::KeyboardInput` arm of `register_event`:
on a press with a text payload push `keypress` at the constant
`ElementId(1)`; on a Tab press delegate to
`FocusState::progress(rdom, !shift)` and return; otherwise push
`keydown`/`keyup` at the focus controller's `last_focused_id`. -/
def BlitzEventHandler.registerKeyboardInput (ev : KeyEvent) (h : BlitzEventHandler) :
    BlitzEventHandler :=
  let h1 :=
    if ev.state = .pressed ∧ ev.text.isSome then
      h.pushEvent ⟨some 1, "keypress", true⟩
    else h
  if ev.state = .pressed ∧ ev.logical_key = .tab then
    h1.callProgress (!h1.state.modifier_state.shift)
  else
    h1.pushEvent
      ⟨h1.state.focus_state.last_focused_id,
        match ev.state with
        | .pressed => "keydown"
        | .released => "keyup",
        true⟩

/-- Mirror of the `WindowEvent::ModifiersChanged` arm: rebuild the
modifier set from the four platform flags. -/
def BlitzEventHandler.registerModifiersChanged
    (alt control superKey shift : Bool) (h : BlitzEventHandler) : BlitzEventHandler :=
  { h with state := { h.state with modifier_state := ⟨alt, control, superKey, shift⟩ } }

/-! ## Cursor movement -/

/-- Mirror of the `WindowEvent::CursorMoved` arm: hit-test the new
position (`get_hovered` from `src/mouse.rs` is the externally supplied
`hitTest`), emit enter/leave per the hover transition, then store the
new coordinates unconditionally. -/
def BlitzEventHandler.registerCursorMoved (hitTest : Point → Option Nat) (pos : Point)
    (h : BlitzEventHandler) : BlitzEventHandler :=
  let hovered := hitTest pos
  let h1 :=
    match hovered, h.state.cursor_state.hovered with
    | some hv, some old =>
      if hv ≠ old then
        ((h.pushEvent ⟨some hv, "mouseenter", true⟩).pushEvent
            ⟨some old, "mouseleave", true⟩).setHovered (some hv)
      else h
    | some hv, none => (h.pushEvent ⟨some hv, "mouseenter", true⟩).setHovered (some hv)
    | none, some old => (h.pushEvent ⟨some old, "mouseleave", true⟩).setHovered none
    | none, none => h
  h1.setPosition pos

/-! ## Mouse button input -/

/-- Mirror of the platform-to-canonical button mapping. -/
def mapMouseButton : TaoMouseButton → InputMouseButton
  | .left => .primary
  | .middle => .auxiliary
  | .right => .secondary
  | .other n => if n = 4 then .fourth else if n = 5 then .fifth else .unknown

/-- `buttons |= button` on an enum set. -/
def insertButton (l : List InputMouseButton) (b : InputMouseButton) : List InputMouseButton :=
  if b ∈ l then l else l ++ [b]

/-- Per-node state read by the mouse arm: `prevent_default` and the
focusability capability.  Both live on the real-dom node
(`src/node.rs`/`src/focus.rs`, outside the embedded files); only the
comparison against `PreventDefault::MouseUp` and the boolean
`focus.level.focusable()` are observable here. -/
inductive PreventDefault where
  | mouseUp
  | otherPD
deriving DecidableEq, Repr

/-- The per-node state the mouse arm reads. -/
structure NodeData where
  prevent_default : PreventDefault
  focusable : Bool
deriving DecidableEq, Repr

/-- Mirror of the `WindowEvent::MouseInput` arm: a no-op when nothing is
hovered; otherwise update the pressed-button set, emit
`mousedown`/`mouseup` (plus `click`/`dblclick` on a matching release),
and finally — on both transitions — transfer focus to the hovered node
when its `prevent_default` is not `MouseUp` and it is focusable.
`dom` maps a node handle to the state read from `rdom[hovered]`, and
`now` is the current time in milliseconds. -/
def BlitzEventHandler.registerMouseInput (dom : Nat → NodeData) (now : Nat)
    (st : ElementState) (btn : TaoMouseButton) (h : BlitzEventHandler) : BlitzEventHandler :=
  match h.state.cursor_state.hovered with
  | none => h
  | some hovered =>
    let button := mapMouseButton btn
    let h1 :=
      match st with
      | .pressed => h.setButtons (insertButton h.state.cursor_state.buttons button)
      | .released => h.setButtons (h.state.cursor_state.buttons.erase button)
    let prevent_default := (dom hovered).prevent_default
    let h2 :=
      match st with
      | .pressed =>
        (h1.pushEvent ⟨some hovered, "mousedown", true⟩).setLastPressed (some hovered)
      | .released =>
        let h3 := h1.pushEvent ⟨some hovered, "mouseup", true⟩
        let lastPressed := h3.state.cursor_state.last_pressed_element
        let h4 := h3.setLastPressed none
        if lastPressed = some hovered then
          let h5 := h4.pushEvent ⟨some hovered, "click", true⟩
          let lastClick := h5.state.cursor_state.last_click
          let h6 := h5.setLastClick none
          let h7 :=
            match lastClick with
            | some lastClicked =>
              if h6.state.cursor_state.last_clicked_element = some hovered ∧
                  now - lastClicked < DBL_CLICK_TIME then
                h6.pushEvent ⟨some hovered, "dblclick", true⟩
              else h6
            | none => h6
          (h7.setLastClicked (some hovered)).setLastClick (some now)
        else h4
    if prevent_default ≠ .mouseUp ∧ (dom hovered).focusable = true then
      h2.callSetFocus hovered
    else h2

/-! ## Pruning (tree mutation) -/

/-- Mirror of `BlitzEventHandler::prune_id`: clear each of the three
transient node references that equals the removed handle. -/
def BlitzEventHandler.prune_id (removed : Nat) (h : BlitzEventHandler) : BlitzEventHandler :=
  let h1 := if h.state.cursor_state.hovered = some removed then h.setHovered none else h
  let h2 :=
    if h1.state.cursor_state.last_pressed_element = some removed then h1.setLastPressed none
    else h1
  if h2.state.cursor_state.last_clicked_element = some removed then h2.setLastClicked none
  else h2

/-- Mirror of the local `remove_children` recursion in
`BlitzEventHandler::prune`: prune the named node, then recurse into its
children as given by the (pre-edit) tree.  The tree is the children map
of the real dom (`rdom[id].node_type`'s `children`, empty for non-element
nodes); `fuel` bounds the recursion depth — the source recursion runs on
a finite tree, so any `fuel` at least the height of the pruned subtree
performs the identical traversal. -/
def removeChildren (children : Nat → List Nat) (fuel : Nat) (removed : Nat)
    (h : BlitzEventHandler) : BlitzEventHandler :=
  match fuel with
  | 0 => h
  | f + 1 =>
    (children removed).foldl (fun acc c => removeChildren children f c acc)
      (h.prune_id removed)

/-- The structural edits of a `Mutations` batch, restricted to what
`prune` distinguishes: `ReplaceWith`/`Remove` naming a root node, and
every other edit kind. -/
inductive DomEdit where
  | replaceWith (root : Nat)
  | remove (root : Nat)
  | otherEdit
deriving DecidableEq, Repr

/-- Mirror of `BlitzEventHandler::prune`: walk the edit list in order
and run `remove_children` on every `ReplaceWith`/`Remove` root, all
against the same pre-edit tree. -/
def BlitzEventHandler.prune (children : Nat → List Nat) (fuel : Nat)
    (edits : List DomEdit) (h : BlitzEventHandler) : BlitzEventHandler :=
  edits.foldl
    (fun acc m =>
      match m with
      | .replaceWith root => removeChildren children fuel root acc
      | .remove root => removeChildren children fuel root acc
      | .otherEdit => acc)
    h

/-- Mirror of `drain_events`: empty the queue and return it. -/
def BlitzEventHandler.drain_events (h : BlitzEventHandler) :
    List UserEvent × BlitzEventHandler :=
  (h.queued_events, { h with queued_events := [] })

/-! ## Specification-side definitions

These definitions follow the specification's words (not the source) and
are only used on the specification side of refinement statements. -/

/-- The enter/leave transition table of the specification, by (new
hovered, old hovered): both present and different emits `mouseenter` at
the new node then `mouseleave` at the old one, new-only emits
`mouseenter`, old-only emits `mouseleave`, both absent (and the case of
an unchanged hovered node, which the table leaves implicit) emits
nothing. -/
def specEnterLeaveEvents (newHovered oldHovered : Option Nat) : List UserEvent :=
  match newHovered, oldHovered with
  | some n, some o =>
    if n ≠ o then [⟨some n, "mouseenter", true⟩, ⟨some o, "mouseleave", true⟩] else []
  | some n, none => [⟨some n, "mouseenter", true⟩]
  | none, some o => [⟨some o, "mouseleave", true⟩]
  | none, none => []

/-- Process a sequence of cursor-move events in order. -/
def processMoves (hitTest : Point → Option Nat) (moves : List Point)
    (h : BlitzEventHandler) : BlitzEventHandler :=
  moves.foldl (fun acc p => acc.registerCursorMoved hitTest p) h

/-- The descendants (the node itself included) of a root in the
pre-edit tree, in the traversal order of `remove_children`, with the
same fuel bound. -/
def descendantIds (children : Nat → List Nat) (fuel root : Nat) : List Nat :=
  match fuel with
  | 0 => []
  | f + 1 => root :: (children root).foldr (fun c acc => descendantIds children f c ++ acc) []

/-- All node handles named for removal by an edit batch: the
descendants of every `ReplaceWith`/`Remove` root. -/
def prunedIds (children : Nat → List Nat) (fuel : Nat) (edits : List DomEdit) : List Nat :=
  edits.foldr
    (fun m acc =>
      match m with
      | .replaceWith root => descendantIds children fuel root ++ acc
      | .remove root => descendantIds children fuel root ++ acc
      | .otherEdit => acc)
    []

/-- Scrub one transient node reference: cleared exactly when it names a
removed node. -/
def scrubRef (removed : List Nat) : Option Nat → Option Nat
  | some v => if v ∈ removed then none else some v
  | none => none

/-! ## Style lemmas -/

lemma attrTexts_append (l1 l2 : List Attr) :
    attrTexts (l1 ++ l2) =
      match attrTexts l1, attrTexts l2 with
      | some a, some b => some (a ++ b)
      | _, _ => none := by
  induction l1 with
  | nil =>
    cases h : attrTexts l2 <;> simp [attrTexts, h]
  | cons a rest ih =>
    cases ht : a.value.asText with
    | none => simp [attrTexts, ht]
    | some t =>
      simp only [List.cons_append, attrTexts, ht, List.append_eq]
      rw [ih]
      cases h1 : attrTexts rest <;> cases h2 : attrTexts l2 <;> simp

lemma attrTexts_isSome (attrs : List Attr)
    (h : ∀ a ∈ attrs, (a.value.asText).isSome) : (attrTexts attrs).isSome := by
  induction attrs with
  | nil => simp [attrTexts]
  | cons a rest ih =>
    have ha := h a (by simp)
    cases ht : a.value.asText with
    | none => rw [ht] at ha; simp at ha
    | some t =>
      have hr := ih (fun b hb => h b (by simp [hb]))
      cases hrest : attrTexts rest with
      | none => rw [hrest] at hr; simp at hr
      | some l => simp [attrTexts, ht, hrest]

lemma Border.applyAll_append (p : String → String → Property) (init : Border)
    (d1 d2 : List (String × String)) :
    Border.applyAll p init (d1 ++ d2) = Border.applyAll p (Border.applyAll p init d1) d2 := by
  simp [Border.applyAll, List.foldl_append]

lemma Border.applyAll_cons_unparsed (p : String → String → Property) (init : Border)
    (n t : String) (d : List (String × String)) (hp : p n t = Property.unparsed) :
    Border.applyAll p init ((n, t) :: d) = Border.applyAll p init d := by
  simp [Border.applyAll, hp, Border.applyProp]

lemma Border.reduce_append_pair (p : String → String → Property) (pre : List Attr)
    (n1 t1 n2 t2 : String) (self b : Border) (flag : Bool)
    (h : Border.reduce p (pre ++ [⟨n1, .text t1⟩, ⟨n2, .text t2⟩]) self = some (b, flag)) :
    ∃ base : Border, b = (base.applyProp (p n1 t1)).applyProp (p n2 t2) := by
  unfold Border.reduce at h
  rw [attrTexts_append] at h
  cases hpre : attrTexts pre with
  | none => rw [hpre] at h; simp at h
  | some dpre =>
    rw [hpre] at h
    simp only [attrTexts, AttrValue.asText] at h
    refine ⟨Border.applyAll p Border.default dpre, ?_⟩
    have hb : b = Border.applyAll p Border.default (dpre ++ [(n1, t1), (n2, t2)]) := by
      by_cases hc : self = Border.applyAll p Border.default (dpre ++ [(n1, t1), (n2, t2)]) <;>
        simp [hc] at h <;> simp [h.1, hc]
    rw [hb, Border.applyAll_append]
    simp [Border.applyAll]

/-! ## Claim C1 -/

/-- C1: the claim states that a node's own valid `color` declaration
wins outright over the parent's resolved value.  The code does the
opposite: `ForgroundColor::reduce` uses the parent's resolved value
whenever a parent exists, so the own declaration is dead for every
non-root node.  Evaluated at the failing input — parent resolved to
opaque red, node carrying a valid `color: blue` declaration — the
resolver yields the parent's red, not the node's blue. -/
theorem c1_parent_always_wins_eval :
    ForgroundColor.reduce
        (fun t => if t = "blue" then some (.rgba 0 0 255 255) else none)
        [⟨"color", AttrValue.text "blue"⟩]
        (some ⟨.rgba 255 0 0 255⟩) ⟨.rgba 0 0 0 255⟩
      = (⟨.rgba 255 0 0 255⟩, true) ∧
    (fun t => if t = "blue" then some (CssColor.rgba 0 0 255 255) else none) "blue"
      = some (.rgba 0 0 255 255) ∧
    CssColor.rgba 255 0 0 255 ≠ CssColor.rgba 0 0 255 255 := by
  refine ⟨rfl, rfl, by decide⟩

/-! ## Claim C2 -/

/-- C2: a malformed property-language value in a recognized border
attribute is recovered locally.  First conjunct: a declaration whose
parse falls back to `Property::Unparsed` leaves the reduction exactly
as if the declaration were absent (the sub-property keeps the type
default unless another declaration sets it, and the remaining
declarations still apply).  Second conjunct: on any attribute list of
text declarations the resolver returns a result (no abort). -/
theorem c2_border_malformed_recovered :
    (∀ (p : String → String → Property) (l1 l2 : List Attr) (n t : String)
        (self : Border), p n t = Property.unparsed →
        Border.reduce p (l1 ++ ⟨n, .text t⟩ :: l2) self = Border.reduce p (l1 ++ l2) self) ∧
    (∀ (p : String → String → Property) (attrs : List Attr) (self : Border),
        (∀ a ∈ attrs, (a.value.asText).isSome) → (Border.reduce p attrs self).isSome) := by
  constructor
  · intro p l1 l2 n t self hp
    unfold Border.reduce
    rw [attrTexts_append, attrTexts_append]
    cases h1 : attrTexts l1 with
    | none => rfl
    | some d1 =>
      simp only [attrTexts, AttrValue.asText]
      cases h2 : attrTexts l2 with
      | none => rfl
      | some d2 =>
        have : Border.applyAll p Border.default (d1 ++ (n, t) :: d2)
            = Border.applyAll p Border.default (d1 ++ d2) := by
          rw [Border.applyAll_append, Border.applyAll_append,
            Border.applyAll_cons_unparsed p _ n t d2 hp]
        simp [this]
  · intro p attrs self h
    have := attrTexts_isSome attrs h
    cases hh : attrTexts attrs with
    | none => rw [hh] at this; simp at this
    | some d => simp [Border.reduce, hh]

/-- Concrete run of C2: with a parser sending everything to
`Property::Unparsed`, a malformed `border-color` declaration leaves the
reduction identical to the empty declaration list, and the resolver
produces a result. -/
theorem c2_border_malformed_recovered_witness :
    Border.reduce (fun _ _ => Property.unparsed)
        [⟨"border-color", AttrValue.text "junkvalue"⟩] Border.default
      = Border.reduce (fun _ _ => Property.unparsed) [] Border.default ∧
    (Border.reduce (fun _ _ => Property.unparsed)
        [⟨"border-color", AttrValue.text "junkvalue"⟩] Border.default).isSome := by
  constructor
  · exact c2_border_malformed_recovered.1 (fun _ _ => Property.unparsed) [] []
      "border-color" "junkvalue" Border.default rfl
  · exact c2_border_malformed_recovered.2 (fun _ _ => Property.unparsed)
      [⟨"border-color", AttrValue.text "junkvalue"⟩] Border.default
      (by intro a ha; simp at ha; subst ha; rfl)

/-! ## Claim C5 -/

/-- The first masked `background-color` attribute, if any, fails to
produce a valid parsed color (absent, non-text, or unparsable). -/
def noValidBgDecl (parseColor : String → Option CssColor) (attrs : List Attr) : Prop :=
  match attrs.head? with
  | none => True
  | some a =>
    match a.value.asText with
    | none => True
    | some t => parseColor t = none

/-- C5 counterexample: the claim says an unparsable `background-color`
declaration makes the resolved value fall back to the fully transparent
default.  At a node whose previously resolved background is opaque red
and whose declaration does not parse, the resolver keeps red and
reports no change — it does not fall back to the transparent default. -/
theorem c5_unparsable_keeps_previous_counterexample :
    BackgroundColor.reduce (fun _ => none)
        [⟨"background-color", AttrValue.text "notacolor"⟩]
        ⟨.rgba 255 0 0 255⟩
      = (⟨.rgba 255 0 0 255⟩, false) ∧
    BackgroundColor.mk (CssColor.rgba 255 0 0 255) ≠ Style.default.bg_color := by
  refine ⟨rfl, by decide⟩

/-- C5 amended: an unparsable or absent `background-color` declaration
leaves the previously resolved value unchanged and reports no change;
the fully transparent default is only the initial value, not a value
the resolver resets to. -/
theorem c5_unparsable_or_absent_keeps_value
    (pc : String → Option CssColor) (attrs : List Attr) (self : BackgroundColor)
    (h : noValidBgDecl pc attrs) :
    BackgroundColor.reduce pc attrs self = (self, false) := by
  cases attrs with
  | nil => rfl
  | cons a rest =>
    cases ht : a.value.asText with
    | none =>
      simp [BackgroundColor.reduce, ht]
    | some t =>
      have hv : pc t = none := by simpa [noValidBgDecl, ht] using h
      simp [BackgroundColor.reduce, ht, hv]

/-- Concrete run of C5 (amended): the resolver keeps the initial
transparent default when the only declaration is unparsable. -/
theorem c5_unparsable_or_absent_keeps_value_witness :
    BackgroundColor.reduce (fun _ => none)
        [⟨"background-color", AttrValue.text "notacolor"⟩] Style.default.bg_color
      = (Style.default.bg_color, false) :=
  c5_unparsable_or_absent_keeps_value (fun _ => none)
    [⟨"background-color", AttrValue.text "notacolor"⟩] Style.default.bg_color rfl

/-! ## Claim C6 -/

/-- C6: the border resolver's fixed recognized-attribute mask contains
all fifteen border attribute names (three shorthands and the four
per-edge longhands of each), and when a shorthand declaration is
applied before the matching longhand in the same reduction pass, the
longhand overrides exactly the corresponding edge of the shorthand.
The override part is stated for all twelve shorthand/longhand pairs:
the four width edges, the four color edges and the four radius
corners. -/
theorem c6_border_mask_and_longhand_override :
    ("border-color" ∈ Border.NODE_MASK ∧
     "border-top-color" ∈ Border.NODE_MASK ∧
     "border-right-color" ∈ Border.NODE_MASK ∧
     "border-bottom-color" ∈ Border.NODE_MASK ∧
     "border-left-color" ∈ Border.NODE_MASK ∧
     "border-radius" ∈ Border.NODE_MASK ∧
     "border-top-left-radius" ∈ Border.NODE_MASK ∧
     "border-top-right-radius" ∈ Border.NODE_MASK ∧
     "border-bottom-right-radius" ∈ Border.NODE_MASK ∧
     "border-bottom-left-radius" ∈ Border.NODE_MASK ∧
     "border-width" ∈ Border.NODE_MASK ∧
     "border-top-width" ∈ Border.NODE_MASK ∧
     "border-right-width" ∈ Border.NODE_MASK ∧
     "border-bottom-width" ∈ Border.NODE_MASK ∧
     "border-left-width" ∈ Border.NODE_MASK) ∧
    (∀ (p : String → String → Property) (pre : List Attr) (st lt : String)
        (self b : Border) (flag : Bool) (wS : BorderWidthV) (wT : BorderSideWidth),
        p "border-width" st = Property.borderWidth wS →
        p "border-top-width" lt = Property.borderTopWidth wT →
        Border.reduce p (pre ++ [⟨"border-width", .text st⟩, ⟨"border-top-width", .text lt⟩]) self
          = some (b, flag) →
        b.width = ⟨wT, wS.right, wS.bottom, wS.left⟩) ∧
    (∀ (p : String → String → Property) (pre : List Attr) (st lt : String)
        (self b : Border) (flag : Bool) (wS : BorderWidthV) (wT : BorderSideWidth),
        p "border-width" st = Property.borderWidth wS →
        p "border-right-width" lt = Property.borderRightWidth wT →
        Border.reduce p (pre ++ [⟨"border-width", .text st⟩, ⟨"border-right-width", .text lt⟩]) self
          = some (b, flag) →
        b.width = ⟨wS.top, wT, wS.bottom, wS.left⟩) ∧
    (∀ (p : String → String → Property) (pre : List Attr) (st lt : String)
        (self b : Border) (flag : Bool) (wS : BorderWidthV) (wT : BorderSideWidth),
        p "border-width" st = Property.borderWidth wS →
        p "border-bottom-width" lt = Property.borderBottomWidth wT →
        Border.reduce p (pre ++ [⟨"border-width", .text st⟩, ⟨"border-bottom-width", .text lt⟩]) self
          = some (b, flag) →
        b.width = ⟨wS.top, wS.right, wT, wS.left⟩) ∧
    (∀ (p : String → String → Property) (pre : List Attr) (st lt : String)
        (self b : Border) (flag : Bool) (wS : BorderWidthV) (wT : BorderSideWidth),
        p "border-width" st = Property.borderWidth wS →
        p "border-left-width" lt = Property.borderLeftWidth wT →
        Border.reduce p (pre ++ [⟨"border-width", .text st⟩, ⟨"border-left-width", .text lt⟩]) self
          = some (b, flag) →
        b.width = ⟨wS.top, wS.right, wS.bottom, wT⟩) ∧
    (∀ (p : String → String → Property) (pre : List Attr) (st lt : String)
        (self b : Border) (flag : Bool) (cS : BorderColorV) (cT : CssColor),
        p "border-color" st = Property.borderColor cS →
        p "border-top-color" lt = Property.borderTopColor cT →
        Border.reduce p (pre ++ [⟨"border-color", .text st⟩, ⟨"border-top-color", .text lt⟩]) self
          = some (b, flag) →
        b.colors = ⟨cT, cS.right, cS.bottom, cS.left⟩) ∧
    (∀ (p : String → String → Property) (pre : List Attr) (st lt : String)
        (self b : Border) (flag : Bool) (cS : BorderColorV) (cT : CssColor),
        p "border-color" st = Property.borderColor cS →
        p "border-right-color" lt = Property.borderRightColor cT →
        Border.reduce p (pre ++ [⟨"border-color", .text st⟩, ⟨"border-right-color", .text lt⟩]) self
          = some (b, flag) →
        b.colors = ⟨cS.top, cT, cS.bottom, cS.left⟩) ∧
    (∀ (p : String → String → Property) (pre : List Attr) (st lt : String)
        (self b : Border) (flag : Bool) (cS : BorderColorV) (cT : CssColor),
        p "border-color" st = Property.borderColor cS →
        p "border-bottom-color" lt = Property.borderBottomColor cT →
        Border.reduce p
            (pre ++ [⟨"border-color", .text st⟩, ⟨"border-bottom-color", .text lt⟩]) self
          = some (b, flag) →
        b.colors = ⟨cS.top, cS.right, cT, cS.left⟩) ∧
    (∀ (p : String → String → Property) (pre : List Attr) (st lt : String)
        (self b : Border) (flag : Bool) (cS : BorderColorV) (cT : CssColor),
        p "border-color" st = Property.borderColor cS →
        p "border-left-color" lt = Property.borderLeftColor cT →
        Border.reduce p (pre ++ [⟨"border-color", .text st⟩, ⟨"border-left-color", .text lt⟩]) self
          = some (b, flag) →
        b.colors = ⟨cS.top, cS.right, cS.bottom, cT⟩) ∧
    (∀ (p : String → String → Property) (pre : List Attr) (st lt : String)
        (self b : Border) (flag : Bool) (rS : BorderRadiusV) (rT : Radius),
        p "border-radius" st = Property.borderRadius rS →
        p "border-top-left-radius" lt = Property.borderTopLeftRadius rT →
        Border.reduce p
            (pre ++ [⟨"border-radius", .text st⟩, ⟨"border-top-left-radius", .text lt⟩]) self
          = some (b, flag) →
        b.radius = ⟨rT, rS.top_right, rS.bottom_right, rS.bottom_left⟩) ∧
    (∀ (p : String → String → Property) (pre : List Attr) (st lt : String)
        (self b : Border) (flag : Bool) (rS : BorderRadiusV) (rT : Radius),
        p "border-radius" st = Property.borderRadius rS →
        p "border-top-right-radius" lt = Property.borderTopRightRadius rT →
        Border.reduce p
            (pre ++ [⟨"border-radius", .text st⟩, ⟨"border-top-right-radius", .text lt⟩]) self
          = some (b, flag) →
        b.radius = ⟨rS.top_left, rT, rS.bottom_right, rS.bottom_left⟩) ∧
    (∀ (p : String → String → Property) (pre : List Attr) (st lt : String)
        (self b : Border) (flag : Bool) (rS : BorderRadiusV) (rT : Radius),
        p "border-radius" st = Property.borderRadius rS →
        p "border-bottom-right-radius" lt = Property.borderBottomRightRadius rT →
        Border.reduce p
            (pre ++ [⟨"border-radius", .text st⟩, ⟨"border-bottom-right-radius", .text lt⟩]) self
          = some (b, flag) →
        b.radius = ⟨rS.top_left, rS.top_right, rT, rS.bottom_left⟩) ∧
    (∀ (p : String → String → Property) (pre : List Attr) (st lt : String)
        (self b : Border) (flag : Bool) (rS : BorderRadiusV) (rT : Radius),
        p "border-radius" st = Property.borderRadius rS →
        p "border-bottom-left-radius" lt = Property.borderBottomLeftRadius rT →
        Border.reduce p
            (pre ++ [⟨"border-radius", .text st⟩, ⟨"border-bottom-left-radius", .text lt⟩]) self
          = some (b, flag) →
        b.radius = ⟨rS.top_left, rS.top_right, rS.bottom_right, rT⟩) := by
  refine ⟨by decide, ?_, ?_, ?_, ?_, ?_, ?_, ?_, ?_, ?_, ?_, ?_, ?_⟩ <;>
  · intro p pre st lt self b flag vS vT h1 h2 h
    obtain ⟨base, hb⟩ := Border.reduce_append_pair p pre _ st _ lt self b flag h
    subst hb
    simp [h1, h2, Border.applyProp]

/-- Concrete run of C6: shorthand `border-width` applied first, longhand
`border-top-width` second; the resolved width is the longhand on the
top edge and the shorthand on the other three. -/
theorem c6_border_mask_and_longhand_override_witness :
    ∃ b : Border, ∃ flag : Bool,
      Border.reduce
          (fun n _ =>
            if n = "border-width" then
              Property.borderWidth ⟨.thick, .thick, .thick, .thick⟩
            else if n = "border-top-width" then Property.borderTopWidth .thin
            else Property.unparsed)
          [⟨"border-width", .text "thick"⟩, ⟨"border-top-width", .text "thin"⟩]
          Border.default
        = some (b, flag) ∧
      b.width = ⟨.thin, .thick, .thick, .thick⟩ := by
  refine ⟨_, _, rfl, ?_⟩
  exact (c6_border_mask_and_longhand_override.2.1
    (fun n _ =>
      if n = "border-width" then Property.borderWidth ⟨.thick, .thick, .thick, .thick⟩
      else if n = "border-top-width" then Property.borderTopWidth .thin
      else Property.unparsed)
    [] "thick" "thin" Border.default _ _ ⟨.thick, .thick, .thick, .thick⟩ .thin
    rfl rfl rfl)

/-! ## Event handler projection lemmas -/

namespace BlitzEventHandler

@[simp] lemma pushEvent_queued (h : BlitzEventHandler) (e : UserEvent) :
    (h.pushEvent e).queued_events = h.queued_events ++ [e] := rfl

@[simp] lemma pushEvent_state (h : BlitzEventHandler) (e : UserEvent) :
    (h.pushEvent e).state = h.state := rfl

@[simp] lemma setHovered_queued (h : BlitzEventHandler) (v : Option Nat) :
    (h.setHovered v).queued_events = h.queued_events := rfl

@[simp] lemma setHovered_modifiers (h : BlitzEventHandler) (v : Option Nat) :
    (h.setHovered v).state.modifier_state = h.state.modifier_state := rfl

@[simp] lemma setHovered_focus (h : BlitzEventHandler) (v : Option Nat) :
    (h.setHovered v).state.focus_state = h.state.focus_state := rfl

@[simp] lemma setHovered_cursor (h : BlitzEventHandler) (v : Option Nat) :
    (h.setHovered v).state.cursor_state = { h.state.cursor_state with hovered := v } := rfl

@[simp] lemma setPosition_queued (h : BlitzEventHandler) (v : Point) :
    (h.setPosition v).queued_events = h.queued_events := rfl

@[simp] lemma setPosition_modifiers (h : BlitzEventHandler) (v : Point) :
    (h.setPosition v).state.modifier_state = h.state.modifier_state := rfl

@[simp] lemma setPosition_focus (h : BlitzEventHandler) (v : Point) :
    (h.setPosition v).state.focus_state = h.state.focus_state := rfl

@[simp] lemma setPosition_cursor (h : BlitzEventHandler) (v : Point) :
    (h.setPosition v).state.cursor_state = { h.state.cursor_state with position := v } := rfl

@[simp] lemma setButtons_queued (h : BlitzEventHandler) (v : List InputMouseButton) :
    (h.setButtons v).queued_events = h.queued_events := rfl

@[simp] lemma setButtons_modifiers (h : BlitzEventHandler) (v : List InputMouseButton) :
    (h.setButtons v).state.modifier_state = h.state.modifier_state := rfl

@[simp] lemma setButtons_focus (h : BlitzEventHandler) (v : List InputMouseButton) :
    (h.setButtons v).state.focus_state = h.state.focus_state := rfl

@[simp] lemma setButtons_cursor (h : BlitzEventHandler) (v : List InputMouseButton) :
    (h.setButtons v).state.cursor_state = { h.state.cursor_state with buttons := v } := rfl

@[simp] lemma setLastClick_queued (h : BlitzEventHandler) (v : Option Nat) :
    (h.setLastClick v).queued_events = h.queued_events := rfl

@[simp] lemma setLastClick_modifiers (h : BlitzEventHandler) (v : Option Nat) :
    (h.setLastClick v).state.modifier_state = h.state.modifier_state := rfl

@[simp] lemma setLastClick_focus (h : BlitzEventHandler) (v : Option Nat) :
    (h.setLastClick v).state.focus_state = h.state.focus_state := rfl

@[simp] lemma setLastClick_cursor (h : BlitzEventHandler) (v : Option Nat) :
    (h.setLastClick v).state.cursor_state = { h.state.cursor_state with last_click := v } := rfl

@[simp] lemma setLastPressed_queued (h : BlitzEventHandler) (v : Option Nat) :
    (h.setLastPressed v).queued_events = h.queued_events := rfl

@[simp] lemma setLastPressed_modifiers (h : BlitzEventHandler) (v : Option Nat) :
    (h.setLastPressed v).state.modifier_state = h.state.modifier_state := rfl

@[simp] lemma setLastPressed_focus (h : BlitzEventHandler) (v : Option Nat) :
    (h.setLastPressed v).state.focus_state = h.state.focus_state := rfl

@[simp] lemma setLastPressed_cursor (h : BlitzEventHandler) (v : Option Nat) :
    (h.setLastPressed v).state.cursor_state
      = { h.state.cursor_state with last_pressed_element := v } := rfl

@[simp] lemma setLastClicked_queued (h : BlitzEventHandler) (v : Option Nat) :
    (h.setLastClicked v).queued_events = h.queued_events := rfl

@[simp] lemma setLastClicked_modifiers (h : BlitzEventHandler) (v : Option Nat) :
    (h.setLastClicked v).state.modifier_state = h.state.modifier_state := rfl

@[simp] lemma setLastClicked_focus (h : BlitzEventHandler) (v : Option Nat) :
    (h.setLastClicked v).state.focus_state = h.state.focus_state := rfl

@[simp] lemma setLastClicked_cursor (h : BlitzEventHandler) (v : Option Nat) :
    (h.setLastClicked v).state.cursor_state
      = { h.state.cursor_state with last_clicked_element := v } := rfl

@[simp] lemma callProgress_queued (h : BlitzEventHandler) (f : Bool) :
    (h.callProgress f).queued_events = h.queued_events := rfl

@[simp] lemma callProgress_modifiers (h : BlitzEventHandler) (f : Bool) :
    (h.callProgress f).state.modifier_state = h.state.modifier_state := rfl

@[simp] lemma callProgress_cursor (h : BlitzEventHandler) (f : Bool) :
    (h.callProgress f).state.cursor_state = h.state.cursor_state := rfl

@[simp] lemma callProgress_focus (h : BlitzEventHandler) (f : Bool) :
    (h.callProgress f).state.focus_state
      = { h.state.focus_state with ops := h.state.focus_state.ops ++ [.progress f] } := rfl

@[simp] lemma callSetFocus_queued (h : BlitzEventHandler) (i : Nat) :
    (h.callSetFocus i).queued_events = h.queued_events := rfl

@[simp] lemma callSetFocus_modifiers (h : BlitzEventHandler) (i : Nat) :
    (h.callSetFocus i).state.modifier_state = h.state.modifier_state := rfl

@[simp] lemma callSetFocus_cursor (h : BlitzEventHandler) (i : Nat) :
    (h.callSetFocus i).state.cursor_state = h.state.cursor_state := rfl

@[simp] lemma callSetFocus_focus (h : BlitzEventHandler) (i : Nat) :
    (h.callSetFocus i).state.focus_state
      = { h.state.focus_state with ops := h.state.focus_state.ops ++ [.set_focus i] } := rfl

end BlitzEventHandler

/-! ## Cursor-move characterization -/

lemma registerCursorMoved_queued (hitTest : Point → Option Nat) (pos : Point)
    (h : BlitzEventHandler) :
    (h.registerCursorMoved hitTest pos).queued_events
      = h.queued_events ++ specEnterLeaveEvents (hitTest pos) h.state.cursor_state.hovered := by
  unfold BlitzEventHandler.registerCursorMoved specEnterLeaveEvents
  cases hht : hitTest pos with
  | none =>
    cases hold : h.state.cursor_state.hovered <;> simp
  | some hv =>
    cases hold : h.state.cursor_state.hovered with
    | none => simp
    | some old =>
      by_cases he : hv = old <;> simp [he]

lemma registerCursorMoved_hovered (hitTest : Point → Option Nat) (pos : Point)
    (h : BlitzEventHandler) :
    (h.registerCursorMoved hitTest pos).state.cursor_state.hovered = hitTest pos := by
  unfold BlitzEventHandler.registerCursorMoved
  cases hht : hitTest pos with
  | none =>
    cases hold : h.state.cursor_state.hovered <;> simp [hold]
  | some hv =>
    cases hold : h.state.cursor_state.hovered with
    | none => simp
    | some old =>
      by_cases he : hv = old <;> simp [he, hold]

lemma registerCursorMoved_position (hitTest : Point → Option Nat) (pos : Point)
    (h : BlitzEventHandler) :
    (h.registerCursorMoved hitTest pos).state.cursor_state.position = pos := by
  unfold BlitzEventHandler.registerCursorMoved
  cases hht : hitTest pos with
  | none => cases hold : h.state.cursor_state.hovered <;> simp
  | some hv =>
    cases hold : h.state.cursor_state.hovered with
    | none => simp
    | some old => by_cases he : hv = old <;> simp [he]

lemma registerCursorMoved_rest (hitTest : Point → Option Nat) (pos : Point)
    (h : BlitzEventHandler) :
    (h.registerCursorMoved hitTest pos).state.modifier_state = h.state.modifier_state ∧
    (h.registerCursorMoved hitTest pos).state.focus_state = h.state.focus_state ∧
    (h.registerCursorMoved hitTest pos).state.cursor_state.buttons
      = h.state.cursor_state.buttons ∧
    (h.registerCursorMoved hitTest pos).state.cursor_state.last_click
      = h.state.cursor_state.last_click ∧
    (h.registerCursorMoved hitTest pos).state.cursor_state.last_pressed_element
      = h.state.cursor_state.last_pressed_element ∧
    (h.registerCursorMoved hitTest pos).state.cursor_state.last_clicked_element
      = h.state.cursor_state.last_clicked_element := by
  unfold BlitzEventHandler.registerCursorMoved
  cases hht : hitTest pos with
  | none => cases hold : h.state.cursor_state.hovered <;> simp
  | some hv =>
    cases hold : h.state.cursor_state.hovered with
    | none => simp
    | some old => by_cases he : hv = old <;> simp [he]

/-! ## Claim C9 -/

/-- C9: a single cursor move updates the stored hovered node to the
hit-test result, emits exactly the specification's transition table, and
stores the new pointer coordinates regardless of the transition; over
any sequence of moves ending at position `pos`, the stored hovered node
is the hit-test of the latest position. -/
theorem c9_hover_transition_table :
    (∀ (hitTest : Point → Option Nat) (pos : Point) (h : BlitzEventHandler),
       (h.registerCursorMoved hitTest pos).state.cursor_state.hovered = hitTest pos ∧
       (h.registerCursorMoved hitTest pos).queued_events
         = h.queued_events ++ specEnterLeaveEvents (hitTest pos) h.state.cursor_state.hovered ∧
       (h.registerCursorMoved hitTest pos).state.cursor_state.position = pos) ∧
    (∀ (hitTest : Point → Option Nat) (moves : List Point) (pos : Point)
       (h : BlitzEventHandler),
       (processMoves hitTest (moves ++ [pos]) h).state.cursor_state.hovered = hitTest pos) := by
  constructor
  · intro hitTest pos h
    exact ⟨registerCursorMoved_hovered hitTest pos h,
      registerCursorMoved_queued hitTest pos h,
      registerCursorMoved_position hitTest pos h⟩
  · intro hitTest moves pos h
    unfold processMoves
    rw [List.foldl_append]
    exact registerCursorMoved_hovered hitTest pos _

/-! ## Claim C3 -/

/-- C3 counterexample: the claim says a Tab key-down emits no event and
no keydown/keyup is emitted for any Tab transition.  From the default
handler state, a Tab press whose platform event carries text emits a
`keypress` before the Tab short-circuit, and a Tab release is not
short-circuited at all: it emits a `keyup` (at the unfocused target). -/
theorem c3_tab_emits_counterexample :
    (BlitzEventHandler.registerKeyboardInput ⟨.pressed, .tab, some "\t"⟩
        BlitzEventHandler.default).queued_events
      = [⟨some 1, "keypress", true⟩] ∧
    (BlitzEventHandler.registerKeyboardInput ⟨.released, .tab, none⟩
        BlitzEventHandler.default).queued_events
      = [⟨none, "keyup", true⟩] := by
  constructor <;> rfl

/-- C3 amended: on Tab key-down the synthesizer emits no keydown or
keyup; it delegates to the focus controller, forward when Shift is not
held and backward when it is, and short-circuits (so the only event
that can precede the short-circuit is the `keypress` emitted when the
platform event carries text).  A Tab key release is not short-circuited:
it emits a normal `keyup` and performs no focus call. -/
theorem c3_tab_focus_delegation (ev : KeyEvent) (h : BlitzEventHandler)
    (htab : ev.logical_key = .tab) :
    (ev.state = .pressed →
      (h.registerKeyboardInput ev).state.focus_state.ops
          = h.state.focus_state.ops ++ [.progress (!h.state.modifier_state.shift)] ∧
      (h.registerKeyboardInput ev).queued_events
          = h.queued_events ++ (if ev.text.isSome then [⟨some 1, "keypress", true⟩] else []) ∧
      (∀ e ∈ (h.registerKeyboardInput ev).queued_events,
        e ∈ h.queued_events ∨ (e.name ≠ "keydown" ∧ e.name ≠ "keyup"))) ∧
    (ev.state = .released →
      (h.registerKeyboardInput ev).queued_events
          = h.queued_events ++ [⟨h.state.focus_state.last_focused_id, "keyup", true⟩] ∧
      (h.registerKeyboardInput ev).state.focus_state.ops = h.state.focus_state.ops) := by
  obtain ⟨st, k, txt⟩ := ev
  simp only at htab
  subst htab
  constructor
  · intro hst
    simp only at hst
    subst hst
    cases txt with
    | none =>
      refine ⟨rfl, by simp [BlitzEventHandler.registerKeyboardInput], ?_⟩
      intro e he
      simp [BlitzEventHandler.registerKeyboardInput] at he
      exact Or.inl he
    | some t =>
      refine ⟨rfl, by simp [BlitzEventHandler.registerKeyboardInput], ?_⟩
      intro e he
      simp [BlitzEventHandler.registerKeyboardInput] at he
      rcases he with he | he
      · exact Or.inl he
      · subst he
        simp
  · intro hst
    simp only at hst
    subst hst
    constructor
    · simp [BlitzEventHandler.registerKeyboardInput]
    · rfl

/-- Concrete run of C3 (amended): a Tab press with no text from the
default state queues nothing and records a forward `progress` call. -/
theorem c3_tab_focus_delegation_witness :
    (BlitzEventHandler.registerKeyboardInput ⟨.pressed, .tab, none⟩
        BlitzEventHandler.default).state.focus_state.ops = [.progress true] ∧
    (BlitzEventHandler.registerKeyboardInput ⟨.pressed, .tab, none⟩
        BlitzEventHandler.default).queued_events = [] := by
  have h := (c3_tab_focus_delegation ⟨.pressed, .tab, none⟩
    BlitzEventHandler.default rfl).1 rfl
  exact ⟨h.1, by simpa using h.2.1⟩

/-! ## Mouse-input characterization -/

lemma registerMouseInput_none (dom : Nat → NodeData) (now : Nat) (st : ElementState)
    (btn : TaoMouseButton) (h : BlitzEventHandler)
    (hh : h.state.cursor_state.hovered = none) :
    h.registerMouseInput dom now st btn = h := by
  unfold BlitzEventHandler.registerMouseInput
  rw [hh]

lemma registerMouseInput_modifiers (dom : Nat → NodeData) (now : Nat) (st : ElementState)
    (btn : TaoMouseButton) (h : BlitzEventHandler) :
    (h.registerMouseInput dom now st btn).state.modifier_state = h.state.modifier_state := by
  unfold BlitzEventHandler.registerMouseInput
  cases hh : h.state.cursor_state.hovered with
  | none => rfl
  | some n =>
    cases st <;>
    by_cases hc : (dom n).prevent_default ≠ .mouseUp ∧ (dom n).focusable = true <;>
    by_cases hlp : h.state.cursor_state.last_pressed_element = some n <;>
    simp [hc, hlp] <;>
    cases hlc : h.state.cursor_state.last_click <;> simp <;> split <;> simp

lemma registerMouseInput_focus (dom : Nat → NodeData) (now : Nat) (st : ElementState)
    (btn : TaoMouseButton) (h : BlitzEventHandler) (n : Nat)
    (hh : h.state.cursor_state.hovered = some n) :
    (h.registerMouseInput dom now st btn).state.focus_state
      = { h.state.focus_state with
          ops := h.state.focus_state.ops ++
            (if (dom n).prevent_default ≠ .mouseUp ∧ (dom n).focusable = true then
              [.set_focus n] else []) } := by
  unfold BlitzEventHandler.registerMouseInput
  rw [hh]
  cases st <;>
  by_cases hc : (dom n).prevent_default ≠ .mouseUp ∧ (dom n).focusable = true <;>
  by_cases hlp : h.state.cursor_state.last_pressed_element = some n <;>
  simp [hc, hlp] <;>
  cases hlc : h.state.cursor_state.last_click <;> simp <;> split <;> simp

lemma registerMouseInput_pressed_queued (dom : Nat → NodeData) (now : Nat)
    (btn : TaoMouseButton) (h : BlitzEventHandler) (n : Nat)
    (hh : h.state.cursor_state.hovered = some n) :
    (h.registerMouseInput dom now .pressed btn).queued_events
      = h.queued_events ++ [⟨some n, "mousedown", true⟩] := by
  unfold BlitzEventHandler.registerMouseInput
  rw [hh]
  by_cases hc : (dom n).prevent_default ≠ .mouseUp ∧ (dom n).focusable = true <;> simp [hc]

lemma registerMouseInput_pressed_cursor (dom : Nat → NodeData) (now : Nat)
    (btn : TaoMouseButton) (h : BlitzEventHandler) (n : Nat)
    (hh : h.state.cursor_state.hovered = some n) :
    (h.registerMouseInput dom now .pressed btn).state.cursor_state
      = { h.state.cursor_state with
          buttons := insertButton h.state.cursor_state.buttons (mapMouseButton btn)
          last_pressed_element := some n } := by
  unfold BlitzEventHandler.registerMouseInput
  rw [hh]
  by_cases hc : (dom n).prevent_default ≠ .mouseUp ∧ (dom n).focusable = true <;> simp [hc]

lemma registerMouseInput_released_queued (dom : Nat → NodeData) (now : Nat)
    (btn : TaoMouseButton) (h : BlitzEventHandler) (n : Nat)
    (hh : h.state.cursor_state.hovered = some n) :
    (h.registerMouseInput dom now .released btn).queued_events
      = h.queued_events ++ ⟨some n, "mouseup", true⟩ ::
        (if h.state.cursor_state.last_pressed_element = some n then
          ⟨some n, "click", true⟩ ::
            (match h.state.cursor_state.last_click with
             | some lastClicked =>
               if h.state.cursor_state.last_clicked_element = some n ∧
                   now - lastClicked < DBL_CLICK_TIME then
                 [⟨some n, "dblclick", true⟩]
               else []
             | none => [])
        else []) := by
  unfold BlitzEventHandler.registerMouseInput
  rw [hh]
  by_cases hc : (dom n).prevent_default ≠ .mouseUp ∧ (dom n).focusable = true <;>
  by_cases hlp : h.state.cursor_state.last_pressed_element = some n <;>
  simp [hc, hlp] <;>
  cases hlc : h.state.cursor_state.last_click <;> simp <;> split <;> simp

lemma registerMouseInput_released_cursor (dom : Nat → NodeData) (now : Nat)
    (btn : TaoMouseButton) (h : BlitzEventHandler) (n : Nat)
    (hh : h.state.cursor_state.hovered = some n) :
    (h.registerMouseInput dom now .released btn).state.cursor_state
      = (if h.state.cursor_state.last_pressed_element = some n then
          { h.state.cursor_state with
            buttons := h.state.cursor_state.buttons.erase (mapMouseButton btn)
            last_pressed_element := none
            last_click := some now
            last_clicked_element := some n }
        else
          { h.state.cursor_state with
            buttons := h.state.cursor_state.buttons.erase (mapMouseButton btn)
            last_pressed_element := none }) := by
  unfold BlitzEventHandler.registerMouseInput
  rw [hh]
  by_cases hc : (dom n).prevent_default ≠ .mouseUp ∧ (dom n).focusable = true <;>
  by_cases hlp : h.state.cursor_state.last_pressed_element = some n <;>
  simp [hc, hlp] <;>
  cases hlc : h.state.cursor_state.last_click <;> simp <;> split <;> simp

/-! ## Claim C4 -/

/-- C4 counterexample: the claim says a pointer-button press does not
change focus (focus moves only after a release).  From a state hovering
a focusable node 7 that does not suppress pointer-up defaults, a single
press records a `set_focus` call to the focus controller — the press
does change focus. -/
theorem c4_press_transfers_focus_counterexample :
    ((BlitzEventHandler.default.setHovered (some 7)).registerMouseInput
        (fun _ => ⟨.otherPD, true⟩) 0 .pressed .left).state.focus_state.ops
      = [.set_focus 7] ∧
    ((BlitzEventHandler.default.setHovered (some 7)).registerMouseInput
        (fun _ => ⟨.otherPD, true⟩) 0 .pressed .left).queued_events
      = [⟨some 7, "mousedown", true⟩] := by
  constructor <;> rfl

/-- C4 amended: the focus block runs after the press/release match, so
focus is transferred to the hovered node via the focus controller on
any pointer-button transition (press or release) exactly when the node
does not suppress default pointer-up behavior and is focusable; a press
additionally emits `mousedown` at the hovered node and records it as
last-pressed. -/
theorem c4_focus_on_any_transition (dom : Nat → NodeData) (now : Nat)
    (st : ElementState) (btn : TaoMouseButton) (h : BlitzEventHandler) (n : Nat)
    (hh : h.state.cursor_state.hovered = some n) :
    (((dom n).prevent_default ≠ .mouseUp ∧ (dom n).focusable = true) →
       (h.registerMouseInput dom now st btn).state.focus_state.ops
         = h.state.focus_state.ops ++ [.set_focus n]) ∧
    (¬((dom n).prevent_default ≠ .mouseUp ∧ (dom n).focusable = true) →
       (h.registerMouseInput dom now st btn).state.focus_state.ops
         = h.state.focus_state.ops) ∧
    (st = .pressed →
       (h.registerMouseInput dom now st btn).queued_events
           = h.queued_events ++ [⟨some n, "mousedown", true⟩] ∧
       (h.registerMouseInput dom now st btn).state.cursor_state.last_pressed_element
           = some n) := by
  refine ⟨?_, ?_, ?_⟩
  · intro hc
    rw [registerMouseInput_focus dom now st btn h n hh]
    simp [hc]
  · intro hc
    rw [registerMouseInput_focus dom now st btn h n hh]
    simp [hc]
  · intro hst
    subst hst
    refine ⟨registerMouseInput_pressed_queued dom now btn h n hh, ?_⟩
    rw [registerMouseInput_pressed_cursor dom now btn h n hh]

/-- Concrete run of C4 (amended): a press over focusable node 7 records
the focus transfer, emits `mousedown` and records last-pressed. -/
theorem c4_focus_on_any_transition_witness :
    ((BlitzEventHandler.default.setHovered (some 7)).registerMouseInput
        (fun _ => ⟨.otherPD, true⟩) 0 .pressed .left).state.focus_state.ops
      = (BlitzEventHandler.default.setHovered (some 7)).state.focus_state.ops
          ++ [.set_focus 7] ∧
    ((BlitzEventHandler.default.setHovered (some 7)).registerMouseInput
        (fun _ => ⟨.otherPD, true⟩) 0 .pressed .left).state.cursor_state.last_pressed_element
      = some 7 := by
  have h := c4_focus_on_any_transition (fun _ => ⟨.otherPD, true⟩) 0 .pressed .left
    (BlitzEventHandler.default.setHovered (some 7)) 7 rfl
  exact ⟨h.1 (by simp), (h.2.2 rfl).2⟩

/-! ## Press/release pair characterization -/

lemma registerMouseInput_clickPair (dom : Nat → NodeData) (tp tr : Nat)
    (btn : TaoMouseButton) (h : BlitzEventHandler) (n : Nat)
    (hh : h.state.cursor_state.hovered = some n) :
    ((h.registerMouseInput dom tp .pressed btn).registerMouseInput dom tr
        .released btn).queued_events
      = h.queued_events ++ ⟨some n, "mousedown", true⟩ :: ⟨some n, "mouseup", true⟩ ::
          ⟨some n, "click", true⟩ ::
          (match h.state.cursor_state.last_click with
           | some lastClicked =>
             if h.state.cursor_state.last_clicked_element = some n ∧
                 tr - lastClicked < DBL_CLICK_TIME then
               [⟨some n, "dblclick", true⟩]
             else []
           | none => []) ∧
    ((h.registerMouseInput dom tp .pressed btn).registerMouseInput dom tr
        .released btn).state.cursor_state
      = { h.state.cursor_state with
          buttons := (insertButton h.state.cursor_state.buttons (mapMouseButton btn)).erase
            (mapMouseButton btn)
          last_pressed_element := none
          last_click := some tr
          last_clicked_element := some n } := by
  have hq1 := registerMouseInput_pressed_queued dom tp btn h n hh
  have hc1 := registerMouseInput_pressed_cursor dom tp btn h n hh
  have hh1 : (h.registerMouseInput dom tp .pressed btn).state.cursor_state.hovered
      = some n := by rw [hc1]; exact hh
  have hq2 := registerMouseInput_released_queued dom tr btn
    (h.registerMouseInput dom tp .pressed btn) n hh1
  have hc2 := registerMouseInput_released_cursor dom tr btn
    (h.registerMouseInput dom tp .pressed btn) n hh1
  constructor
  · rw [hq2, hq1, hc1]
    simp
  · rw [hc2, hc1]
    simp

/-! ## Claim C7 -/

/-- C7: a press and a release on the same hovered node with no
intervening cursor move (from a state with no prior click recorded)
appends exactly `mousedown`, `mouseup`, `click` in that order at that
node; a press on node `a` followed by a move to node `b` and a release
appends `mousedown` at `a`, then the move's enter/leave pair, then
`mouseup` at `b`, and no `click` event. -/
theorem c7_click_sequences :
    (∀ (dom : Nat → NodeData) (t1 t2 : Nat) (btn : TaoMouseButton)
       (h : BlitzEventHandler) (n : Nat),
       h.state.cursor_state.hovered = some n →
       h.state.cursor_state.last_click = none →
       ((h.registerMouseInput dom t1 .pressed btn).registerMouseInput dom t2
           .released btn).queued_events
         = h.queued_events ++
             [⟨some n, "mousedown", true⟩, ⟨some n, "mouseup", true⟩,
              ⟨some n, "click", true⟩]) ∧
    (∀ (dom : Nat → NodeData) (hitTest : Point → Option Nat) (t1 t2 : Nat)
       (btn : TaoMouseButton) (pos : Point) (h : BlitzEventHandler) (a b : Nat),
       h.state.cursor_state.hovered = some a →
       hitTest pos = some b →
       a ≠ b →
       (((h.registerMouseInput dom t1 .pressed btn).registerCursorMoved hitTest
           pos).registerMouseInput dom t2 .released btn).queued_events
         = h.queued_events ++
             [⟨some a, "mousedown", true⟩, ⟨some b, "mouseenter", true⟩,
              ⟨some a, "mouseleave", true⟩, ⟨some b, "mouseup", true⟩]) := by
  constructor
  · intro dom t1 t2 btn h n hh hlc
    rw [(registerMouseInput_clickPair dom t1 t2 btn h n hh).1, hlc]
  · intro dom hitTest t1 t2 btn pos h a b hh hht hab
    have hq1 := registerMouseInput_pressed_queued dom t1 btn h a hh
    have hc1 := registerMouseInput_pressed_cursor dom t1 btn h a hh
    have hh1 : (h.registerMouseInput dom t1 .pressed btn).state.cursor_state.hovered
        = some a := by rw [hc1]; exact hh
    have hq2 := registerCursorMoved_queued hitTest pos
      (h.registerMouseInput dom t1 .pressed btn)
    have hh2 := registerCursorMoved_hovered hitTest pos
      (h.registerMouseInput dom t1 .pressed btn)
    have hrest2 := registerCursorMoved_rest hitTest pos
      (h.registerMouseInput dom t1 .pressed btn)
    have hh2b : ((h.registerMouseInput dom t1 .pressed btn).registerCursorMoved hitTest
        pos).state.cursor_state.hovered = some b := by rw [hh2, hht]
    have hlp2 : ((h.registerMouseInput dom t1 .pressed btn).registerCursorMoved hitTest
        pos).state.cursor_state.last_pressed_element = some a := by
      rw [hrest2.2.2.2.2.1, hc1]
    have hq3 := registerMouseInput_released_queued dom t2 btn
      ((h.registerMouseInput dom t1 .pressed btn).registerCursorMoved hitTest pos) b hh2b
    rw [hq3, hlp2, hq2, hh1, hht, hq1]
    have : ¬ (some a = some b) := by simpa using hab
    simp [specEnterLeaveEvents, Ne.symm hab, this]

/-- Concrete run of C7: press then release on hovered node 3 from the
default state (hover established by a cursor move) appends exactly
`mousedown`, `mouseup`, `click`, and a press on 3, a move to 4 and a
release appends `mousedown` at 3, enter/leave, `mouseup` at 4 and no
`click`. -/
theorem c7_click_sequences_witness :
    (((BlitzEventHandler.default.setHovered (some 3)).registerMouseInput
        (fun _ => ⟨.otherPD, false⟩) 0 .pressed .left).registerMouseInput
        (fun _ => ⟨.otherPD, false⟩) 1 .released .left).queued_events
      = [⟨some 3, "mousedown", true⟩, ⟨some 3, "mouseup", true⟩,
         ⟨some 3, "click", true⟩] ∧
    ((((BlitzEventHandler.default.setHovered (some 3)).registerMouseInput
        (fun _ => ⟨.otherPD, false⟩) 0 .pressed .left).registerCursorMoved
        (fun _ => some 4) ⟨5, 5⟩).registerMouseInput
        (fun _ => ⟨.otherPD, false⟩) 1 .released .left).queued_events
      = [⟨some 3, "mousedown", true⟩, ⟨some 4, "mouseenter", true⟩,
         ⟨some 3, "mouseleave", true⟩, ⟨some 4, "mouseup", true⟩] := by
  constructor
  · exact c7_click_sequences.1 (fun _ => ⟨.otherPD, false⟩) 0 1 .left
      (BlitzEventHandler.default.setHovered (some 3)) 3 rfl rfl
  · exact c7_click_sequences.2 (fun _ => ⟨.otherPD, false⟩) (fun _ => some 4) 0 1 .left
      ⟨5, 5⟩ (BlitzEventHandler.default.setHovered (some 3)) 3 4 rfl rfl (by decide)

/-! ## Claim C8 -/

/-- C8: from a state hovering node `n` with no prior click recorded, two
press/release clicks at times `t1` and `t2` emit `dblclick` immediately
after the second `click` when the clicks are within the 500 ms window,
and do not when they are 501 ms or more apart; in both cases the
last-click bookkeeping is overwritten after the double-click condition
was evaluated against the previous values, leaving node `n` and
timestamp `t2`. -/
theorem c8_double_click_window (dom : Nat → NodeData) (btn : TaoMouseButton)
    (h : BlitzEventHandler) (n t1 t2 : Nat)
    (hh : h.state.cursor_state.hovered = some n)
    (hlc : h.state.cursor_state.last_click = none) :
    (t2 - t1 < DBL_CLICK_TIME →
       (((((h.registerMouseInput dom t1 .pressed btn).registerMouseInput dom t1
           .released btn).registerMouseInput dom t2 .pressed btn).registerMouseInput dom t2
           .released btn)).queued_events
         = h.queued_events ++
             [⟨some n, "mousedown", true⟩, ⟨some n, "mouseup", true⟩,
              ⟨some n, "click", true⟩, ⟨some n, "mousedown", true⟩,
              ⟨some n, "mouseup", true⟩, ⟨some n, "click", true⟩,
              ⟨some n, "dblclick", true⟩]) ∧
    (DBL_CLICK_TIME + 1 ≤ t2 - t1 →
       (((((h.registerMouseInput dom t1 .pressed btn).registerMouseInput dom t1
           .released btn).registerMouseInput dom t2 .pressed btn).registerMouseInput dom t2
           .released btn)).queued_events
         = h.queued_events ++
             [⟨some n, "mousedown", true⟩, ⟨some n, "mouseup", true⟩,
              ⟨some n, "click", true⟩, ⟨some n, "mousedown", true⟩,
              ⟨some n, "mouseup", true⟩, ⟨some n, "click", true⟩]) ∧
    (((((h.registerMouseInput dom t1 .pressed btn).registerMouseInput dom t1
        .released btn).registerMouseInput dom t2 .pressed btn).registerMouseInput dom t2
        .released btn)).state.cursor_state.last_clicked_element = some n ∧
    (((((h.registerMouseInput dom t1 .pressed btn).registerMouseInput dom t1
        .released btn).registerMouseInput dom t2 .pressed btn).registerMouseInput dom t2
        .released btn)).state.cursor_state.last_click = some t2 := by
  obtain ⟨hq1, hc1⟩ := registerMouseInput_clickPair dom t1 t1 btn h n hh
  have hh2 : ((h.registerMouseInput dom t1 .pressed btn).registerMouseInput dom t1
      .released btn).state.cursor_state.hovered = some n := by rw [hc1]; exact hh
  obtain ⟨hq2, hc2⟩ := registerMouseInput_clickPair dom t2 t2 btn
    ((h.registerMouseInput dom t1 .pressed btn).registerMouseInput dom t1 .released btn)
    n hh2
  refine ⟨?_, ?_, ?_, ?_⟩
  · intro hwin
    rw [hq2, hc1, hq1, hlc]
    simp [hwin]
  · intro hfar
    have hnot : ¬ t2 - t1 < DBL_CLICK_TIME := by omega
    rw [hq2, hc1, hq1, hlc]
    simp [hnot]
  · rw [hc2]
  · rw [hc2]

/-- Concrete run of C8: clicks at 0 ms and 100 ms on node 2 produce the
dblclick; the bookkeeping ends at node 2, timestamp 100. -/
theorem c8_double_click_window_witness :
    (((((BlitzEventHandler.default.setHovered (some 2)).registerMouseInput
        (fun _ => ⟨.otherPD, false⟩) 0 .pressed .left).registerMouseInput
        (fun _ => ⟨.otherPD, false⟩) 0 .released .left).registerMouseInput
        (fun _ => ⟨.otherPD, false⟩) 100 .pressed .left).registerMouseInput
        (fun _ => ⟨.otherPD, false⟩) 100 .released .left).queued_events
      = [⟨some 2, "mousedown", true⟩, ⟨some 2, "mouseup", true⟩,
         ⟨some 2, "click", true⟩, ⟨some 2, "mousedown", true⟩,
         ⟨some 2, "mouseup", true⟩, ⟨some 2, "click", true⟩,
         ⟨some 2, "dblclick", true⟩] := by
  have h := c8_double_click_window (fun _ => ⟨.otherPD, false⟩) .left
    (BlitzEventHandler.default.setHovered (some 2)) 2 0 100 rfl rfl
  simpa using h.1 (by decide)

/-! ## Pruning characterization -/

lemma prune_id_eval (r : Nat) (h : BlitzEventHandler) :
    h.prune_id r
      = { h with state := { h.state with cursor_state :=
          { h.state.cursor_state with
            hovered :=
              if h.state.cursor_state.hovered = some r then none
              else h.state.cursor_state.hovered
            last_pressed_element :=
              if h.state.cursor_state.last_pressed_element = some r then none
              else h.state.cursor_state.last_pressed_element
            last_clicked_element :=
              if h.state.cursor_state.last_clicked_element = some r then none
              else h.state.cursor_state.last_clicked_element } } } := by
  unfold BlitzEventHandler.prune_id
  by_cases h1 : h.state.cursor_state.hovered = some r <;>
  by_cases h2 : h.state.cursor_state.last_pressed_element = some r <;>
  by_cases h3 : h.state.cursor_state.last_clicked_element = some r <;>
  simp [h1, h2, h3, BlitzEventHandler.setHovered, BlitzEventHandler.setLastPressed,
    BlitzEventHandler.setLastClicked]

lemma scrubRef_nil (o : Option Nat) : scrubRef [] o = o := by
  cases o <;> simp [scrubRef]

lemma scrubRef_cons (i : Nat) (l : List Nat) (o : Option Nat) :
    scrubRef (i :: l) o = scrubRef l (if o = some i then none else o) := by
  cases o with
  | none => simp [scrubRef]
  | some v =>
    by_cases hv : v = i
    · subst hv
      simp [scrubRef]
    · have hne : ¬ (some v = some i) := by simpa using hv
      simp [scrubRef, hne, hv]

lemma scrubRef_eq_self (l : List Nat) (o : Option Nat)
    (hv : ∀ v, o = some v → v ∉ l) : scrubRef l o = o := by
  cases o with
  | none => simp [scrubRef]
  | some v => simp [scrubRef, hv v rfl]

lemma foldl_prune_id_fields (l : List Nat) (h : BlitzEventHandler) :
    (l.foldl (fun acc i => acc.prune_id i) h).state.cursor_state.hovered
        = scrubRef l h.state.cursor_state.hovered ∧
    (l.foldl (fun acc i => acc.prune_id i) h).state.cursor_state.last_pressed_element
        = scrubRef l h.state.cursor_state.last_pressed_element ∧
    (l.foldl (fun acc i => acc.prune_id i) h).state.cursor_state.last_clicked_element
        = scrubRef l h.state.cursor_state.last_clicked_element ∧
    (l.foldl (fun acc i => acc.prune_id i) h).queued_events = h.queued_events ∧
    (l.foldl (fun acc i => acc.prune_id i) h).state.modifier_state
        = h.state.modifier_state ∧
    (l.foldl (fun acc i => acc.prune_id i) h).state.focus_state = h.state.focus_state ∧
    (l.foldl (fun acc i => acc.prune_id i) h).state.cursor_state.position
        = h.state.cursor_state.position ∧
    (l.foldl (fun acc i => acc.prune_id i) h).state.cursor_state.buttons
        = h.state.cursor_state.buttons ∧
    (l.foldl (fun acc i => acc.prune_id i) h).state.cursor_state.last_click
        = h.state.cursor_state.last_click := by
  induction l generalizing h with
  | nil => simp [scrubRef_nil]
  | cons i l ih =>
    simp only [List.foldl_cons]
    rw [prune_id_eval i h, scrubRef_cons, scrubRef_cons, scrubRef_cons]
    exact ih _

lemma removeChildren_eq_foldl (ch : Nat → List Nat) :
    ∀ (fuel r : Nat) (h : BlitzEventHandler),
      removeChildren ch fuel r h
        = (descendantIds ch fuel r).foldl (fun acc i => acc.prune_id i) h := by
  intro fuel
  induction fuel with
  | zero => intro r h; rfl
  | succ f ihf =>
    intro r h
    show (ch r).foldl (fun acc c => removeChildren ch f c acc) (h.prune_id r) = _
    rw [descendantIds, List.foldl_cons]
    generalize h.prune_id r = h0
    generalize ch r = cs
    induction cs generalizing h0 with
    | nil => rfl
    | cons c cs ih =>
      rw [List.foldl_cons, List.foldr_cons, List.foldl_append, ihf c h0, ih]

lemma prune_eq_foldl (ch : Nat → List Nat) (fuel : Nat) :
    ∀ (edits : List DomEdit) (h : BlitzEventHandler),
      h.prune ch fuel edits
        = (prunedIds ch fuel edits).foldl (fun acc i => acc.prune_id i) h := by
  intro edits
  induction edits with
  | nil => intro h; rfl
  | cons e es ih =>
    intro h
    cases e with
    | replaceWith r =>
      show BlitzEventHandler.prune ch fuel es (removeChildren ch fuel r h) = _
      rw [ih, removeChildren_eq_foldl]
      have hp : prunedIds ch fuel (DomEdit.replaceWith r :: es)
          = descendantIds ch fuel r ++ prunedIds ch fuel es := rfl
      rw [hp, List.foldl_append]
    | remove r =>
      show BlitzEventHandler.prune ch fuel es (removeChildren ch fuel r h) = _
      rw [ih, removeChildren_eq_foldl]
      have hp : prunedIds ch fuel (DomEdit.remove r :: es)
          = descendantIds ch fuel r ++ prunedIds ch fuel es := rfl
      rw [hp, List.foldl_append]
    | otherEdit =>
      show BlitzEventHandler.prune ch fuel es h = _
      rw [ih]
      rfl

lemma BlitzEventHandler.eq_of_fields (h₁ h₂ : BlitzEventHandler)
    (hm : h₁.state.modifier_state = h₂.state.modifier_state)
    (hp : h₁.state.cursor_state.position = h₂.state.cursor_state.position)
    (hb : h₁.state.cursor_state.buttons = h₂.state.cursor_state.buttons)
    (hc : h₁.state.cursor_state.last_click = h₂.state.cursor_state.last_click)
    (hpe : h₁.state.cursor_state.last_pressed_element
      = h₂.state.cursor_state.last_pressed_element)
    (hce : h₁.state.cursor_state.last_clicked_element
      = h₂.state.cursor_state.last_clicked_element)
    (hho : h₁.state.cursor_state.hovered = h₂.state.cursor_state.hovered)
    (hf : h₁.state.focus_state = h₂.state.focus_state)
    (hq : h₁.queued_events = h₂.queued_events) : h₁ = h₂ := by
  obtain ⟨⟨m1, ⟨p1, b1, c1, pe1, ce1, ho1⟩, f1⟩, q1⟩ := h₁
  obtain ⟨⟨m2, ⟨p2, b2, c2, pe2, ce2, ho2⟩, f2⟩, q2⟩ := h₂
  simp_all

/-! ## Claim C10 -/

/-- C10: pruning an edit batch scrubs the hovered, last-pressed and
last-clicked slots for exactly the members of `prunedIds` — the
descendants, roots included, of every node named by a `Remove` or
`ReplaceWith` edit, computed over the pre-edit tree — while every other
part of the handler state (queue, modifiers, focus, coordinates,
buttons, click timestamp) is untouched; and when none of the three slots
references a pruned node, the whole pass is a no-op. -/
theorem c10_prune_scrubs_descendants (ch : Nat → List Nat) (fuel : Nat)
    (edits : List DomEdit) (h : BlitzEventHandler) :
    ((h.prune ch fuel edits).state.cursor_state.hovered
        = scrubRef (prunedIds ch fuel edits) h.state.cursor_state.hovered ∧
     (h.prune ch fuel edits).state.cursor_state.last_pressed_element
        = scrubRef (prunedIds ch fuel edits) h.state.cursor_state.last_pressed_element ∧
     (h.prune ch fuel edits).state.cursor_state.last_clicked_element
        = scrubRef (prunedIds ch fuel edits) h.state.cursor_state.last_clicked_element) ∧
    ((h.prune ch fuel edits).queued_events = h.queued_events ∧
     (h.prune ch fuel edits).state.modifier_state = h.state.modifier_state ∧
     (h.prune ch fuel edits).state.focus_state = h.state.focus_state ∧
     (h.prune ch fuel edits).state.cursor_state.position
        = h.state.cursor_state.position ∧
     (h.prune ch fuel edits).state.cursor_state.buttons
        = h.state.cursor_state.buttons ∧
     (h.prune ch fuel edits).state.cursor_state.last_click
        = h.state.cursor_state.last_click) ∧
    (∀ (r f : Nat), r ∈ descendantIds ch (f + 1) r) ∧
    ((∀ v, h.state.cursor_state.hovered = some v → v ∉ prunedIds ch fuel edits) →
     (∀ v, h.state.cursor_state.last_pressed_element = some v →
        v ∉ prunedIds ch fuel edits) →
     (∀ v, h.state.cursor_state.last_clicked_element = some v →
        v ∉ prunedIds ch fuel edits) →
     Blitz.BlitzEventHandler.prune ch fuel edits h = h) := by
  have hfold := foldl_prune_id_fields (prunedIds ch fuel edits) h
  rw [← prune_eq_foldl] at hfold
  refine ⟨⟨hfold.1, hfold.2.1, hfold.2.2.1⟩,
    ⟨hfold.2.2.2.1, hfold.2.2.2.2.1, hfold.2.2.2.2.2.1, hfold.2.2.2.2.2.2.1,
     hfold.2.2.2.2.2.2.2.1, hfold.2.2.2.2.2.2.2.2⟩, ?_, ?_⟩
  · intro r f
    rw [descendantIds]
    exact List.mem_cons_self r _
  · intro hho hpe hce
    refine BlitzEventHandler.eq_of_fields _ _ hfold.2.2.2.2.1 hfold.2.2.2.2.2.2.1
      hfold.2.2.2.2.2.2.2.1 hfold.2.2.2.2.2.2.2.2 ?_ ?_ ?_
      hfold.2.2.2.2.2.1 hfold.2.2.2.1
    · rw [hfold.2.1]
      exact scrubRef_eq_self _ _ hpe
    · rw [hfold.2.2.1]
      exact scrubRef_eq_self _ _ hce
    · rw [hfold.1]
      exact scrubRef_eq_self _ _ hho

/-- Concrete run of C10: pruning the subtree of node 5 (a leaf) while
the only referenced handle is 9 leaves the handler unchanged, and the
scrubbing equations evaluate at that input. -/
theorem c10_prune_scrubs_descendants_witness :
    BlitzEventHandler.prune (fun _ => []) 1 [.remove 5]
        (BlitzEventHandler.default.setHovered (some 9))
      = BlitzEventHandler.default.setHovered (some 9) := by
  have h := c10_prune_scrubs_descendants (fun _ => []) 1 [.remove 5]
    (BlitzEventHandler.default.setHovered (some 9))
  exact h.2.2.2
    (by intro v hv
        simp [BlitzEventHandler.default, CursorState.default] at hv
        subst hv
        decide)
    (by intro v hv
        simp [BlitzEventHandler.default, CursorState.default] at hv)
    (by intro v hv
        simp [BlitzEventHandler.default, CursorState.default] at hv)

end Blitz
